import Mathlib

/-!
Verification of the pdf2fgu conversion pipeline.

This file gives a shallow embedding, in Lean, of the parts of the repository
that the specification talks about:

* `src/fgu/formattedtext.py` — the document node types (segments, runs,
  paragraphs, lists, table rows, tables, headings, and the top level
  `FormattedText` container) with their `length` and `append` semantics.
* `src/fgu/pdfconverter.py` — the section counter, the style calibration
  performed in `PageData.__init__`, the classification pass
  (`PageData.parse` / `PageData._parse_span`), and the document building
  pass (`PageData.convert` and its per-style handlers).

Python strings are modelled as Lean `String`; the Python string operations
used by the code (`in`, `strip`, `lower`, `startswith`, `len`) are
re-implemented below over the underlying character lists so that every
definition evaluates inside the kernel.  Only ASCII case folding is modelled
for `lower`, which is faithful for all inputs considered here (font names and
style strings).

An important fact about the source, checked definition by definition below:
`pdfconverter.py` was written against an older revision of
`formattedtext.py` and `encounter.py`.  In the revision present in the
repository, `StyledText.__init__`, `FormattedParagraph.__init__` and
`FormattedTableRow.__init__` accept no positional argument,
`StyledText.last_segment` is a property rather than a method,
`encounter.Story.__init__` accepts no `text` keyword, and `Encounter` has an
`add_story` method but no `append_story`.  Consequently several call sites in
`PageData.convert` and its handlers unconditionally raise `TypeError` or
`AttributeError`.  The conversion-pass embedding below models those raising
call sites explicitly with an `Except` result; each raising branch carries a
comment naming the exact source line and the mismatched signature.
-/

/-! ## Python string primitives -/

/-- ASCII lower-casing of one character, modelling Python `str.lower` on the
ASCII inputs that occur in this code base. -/
def lower_char (c : Char) : Char :=
  if 'A' ≤ c ∧ c ≤ 'Z' then Char.ofNat (c.toNat + 32) else c

/-- Python `s.lower()` (ASCII fragment). -/
def py_lower (s : String) : String :=
  ⟨s.data.map lower_char⟩

/-- Python string whitespace, as stripped by `str.strip` / `str.lstrip`. -/
def is_py_space (c : Char) : Bool :=
  c == ' ' || c == '\t' || c == '\n' || c == '\r' ||
    c == Char.ofNat 11 || c == Char.ofNat 12

/-- Python `s.strip()` (also equal to the `s.lstrip().strip()` and
`s.strip().lstrip()` combinations appearing in the source). -/
def py_strip (s : String) : String :=
  ⟨((s.data.dropWhile is_py_space).reverse.dropWhile is_py_space).reverse⟩

/-- Character-list version of Python `s.startswith(p)`. -/
def starts_with_chars : List Char → List Char → Bool
  | [], _ => true
  | _ :: _, [] => false
  | p :: ps, c :: cs => p == c && starts_with_chars ps cs

/-- Python `s.startswith(p)`. -/
def py_starts_with (s p : String) : Bool :=
  starts_with_chars p.data s.data

/-- Character-list substring search used by `py_in`. -/
def has_infix_chars (pat : List Char) : List Char → Bool
  | [] => pat.isEmpty
  | c :: rest => starts_with_chars pat (c :: rest) || has_infix_chars pat rest

/-- Python `needle in haystack` on strings. -/
def py_in (needle haystack : String) : Bool :=
  has_infix_chars needle.data haystack.data

/-- Python `s == t` on strings. -/
def py_eq (s t : String) : Bool :=
  s.data == t.data

/-! ## The document model (`src/fgu/formattedtext.py`)

Each Python class is a Lean structure; each `length` method mirrors the
Python accumulator loop as a left fold; each `append` mirrors the Python
list append.  The `isinstance` checks that guard every Python `append` are
subsumed by the Lean types of the arguments. -/

/-- `StyledTextSegment` — a single piece of text carrying one (bold, italic)
style. -/
structure StyledTextSegment where
  text : String
  bold : Bool
  italic : Bool
deriving Repr, DecidableEq

/-- `StyledTextSegment.length` — Python `len(self._text)`. -/
def StyledTextSegment.length (s : StyledTextSegment) : Nat :=
  s.text.data.length

/-- `StyledTextSegment.append` — concatenates a string onto the segment text. -/
def StyledTextSegment.append (s : StyledTextSegment) (obj : String) : StyledTextSegment :=
  { s with text := s.text ++ obj }

/-- `StyledText` — an ordered list of segments.  In the revision in the
repository its `__init__` takes no argument and starts from the empty
segment list. -/
structure StyledText where
  segments : List StyledTextSegment
deriving Repr, DecidableEq

/-- `StyledText()` — the only constructor the class offers: no positional
argument, empty segment list. -/
def StyledText.init : StyledText :=
  ⟨[]⟩

/-- `StyledText.length` — the Python loop summing `text.length()` over
`self._segments`. -/
def StyledText.length (st : StyledText) : Nat :=
  st.segments.foldl (fun total t => total + t.length) 0

/-- `StyledText.append` — appends the given segment to `self._segments`.
No merging of any kind is performed: every appended segment is retained as
its own list element. -/
def StyledText.append (st : StyledText) (obj : StyledTextSegment) : StyledText :=
  ⟨st.segments ++ [obj]⟩

/-- `StyledText.last_segment` — a property returning `self._segments[-1]`;
`none` models the `IndexError` raised on an empty list. -/
def StyledText.last_segment (st : StyledText) : Option StyledTextSegment :=
  st.segments.getLast?

/-- `FormattedList` — bullet list; holds one `StyledText` per entry. -/
structure FormattedList where
  items : List StyledText
deriving Repr, DecidableEq

/-- `FormattedList.length` — sums `item.length()` over `self._items`. -/
def FormattedList.length (l : FormattedList) : Nat :=
  l.items.foldl (fun total t => total + t.length) 0

/-- `FormattedList.append` — appends a `StyledText` entry. -/
def FormattedList.append (l : FormattedList) (obj : StyledText) : FormattedList :=
  ⟨l.items ++ [obj]⟩

/-- `FormattedParagraph` — in the revision in the repository its `__init__`
takes no argument and creates an empty `StyledText`. -/
structure FormattedParagraph where
  styled_text : StyledText
deriving Repr, DecidableEq

/-- `FormattedParagraph()`. -/
def FormattedParagraph.init : FormattedParagraph :=
  ⟨StyledText.init⟩

/-- `FormattedParagraph.length`. -/
def FormattedParagraph.length (p : FormattedParagraph) : Nat :=
  p.styled_text.length

/-- `FormattedParagraph.append` — appends a segment to the inner run. -/
def FormattedParagraph.append (p : FormattedParagraph) (obj : StyledTextSegment) :
    FormattedParagraph :=
  ⟨p.styled_text.append obj⟩

/-- `FormattedFrame` — unstyled call-out text. -/
structure FormattedFrame where
  text : String
deriving Repr, DecidableEq

/-- `FormattedFrame.length`. -/
def FormattedFrame.length (f : FormattedFrame) : Nat :=
  f.text.data.length

/-- `FormattedHeading` — an in-body heading node. -/
structure FormattedHeading where
  text : String
deriving Repr, DecidableEq

/-- `FormattedHeading.length`. -/
def FormattedHeading.length (h : FormattedHeading) : Nat :=
  h.text.data.length

/-- `FormattedHeading.append` — concatenates onto the heading text. -/
def FormattedHeading.append (h : FormattedHeading) (obj : String) : FormattedHeading :=
  ⟨h.text ++ obj⟩

/-- `FormattedTableRow` — in the revision in the repository its `__init__`
takes no argument and starts with no columns. -/
structure FormattedTableRow where
  columns : List StyledText
deriving Repr, DecidableEq

/-- `FormattedTableRow()`. -/
def FormattedTableRow.init : FormattedTableRow :=
  ⟨[]⟩

/-- `FormattedTableRow.length` — sums `column.length()` over the columns. -/
def FormattedTableRow.length (r : FormattedTableRow) : Nat :=
  r.columns.foldl (fun total t => total + t.length) 0

/-- `FormattedTableRow.count` — the number of columns. -/
def FormattedTableRow.count (r : FormattedTableRow) : Nat :=
  r.columns.length

/-- `FormattedTableRow.append` — appends a `StyledText` column. -/
def FormattedTableRow.append (r : FormattedTableRow) (obj : StyledText) : FormattedTableRow :=
  ⟨r.columns ++ [obj]⟩

/-- `FormattedTable` — an ordered list of rows. -/
structure FormattedTable where
  rows : List FormattedTableRow
deriving Repr, DecidableEq

/-- `FormattedTable()`. -/
def FormattedTable.init : FormattedTable :=
  ⟨[]⟩

/-- `FormattedTable.length` — sums `row.length()` over the rows. -/
def FormattedTable.length (t : FormattedTable) : Nat :=
  t.rows.foldl (fun total r => total + r.length) 0

/-- `FormattedTable.append` — appends a row. -/
def FormattedTable.append (t : FormattedTable) (obj : FormattedTableRow) : FormattedTable :=
  ⟨t.rows ++ [obj]⟩

/-- The closed set of node kinds that `pdfconverter.py` appends to a
`FormattedText` document (the Python classes all derive
`FormattedTextObject`). -/
inductive FTObject where
  | paragraph (p : FormattedParagraph)
  | bulletList (l : FormattedList)
  | table (t : FormattedTable)
  | heading (h : FormattedHeading)
  | frame (f : FormattedFrame)
deriving Repr, DecidableEq

/-- Dynamic dispatch of `length` over the node kinds. -/
def FTObject.length : FTObject → Nat
  | .paragraph p => p.length
  | .bulletList l => l.length
  | .table t => t.length
  | .heading h => h.length
  | .frame f => f.length

/-- `FormattedText` — the top level document container. -/
structure FormattedText where
  document : List FTObject
deriving Repr, DecidableEq

/-- `FormattedText()`. -/
def FormattedText.init : FormattedText :=
  ⟨[]⟩

/-- `FormattedText.length` — sums `obj.length()` over `self._document`. -/
def FormattedText.length (ft : FormattedText) : Nat :=
  ft.document.foldl (fun total o => total + o.length) 0

/-- `FormattedText.append` — appends a node to the document. -/
def FormattedText.append (ft : FormattedText) (obj : FTObject) : FormattedText :=
  ⟨ft.document ++ [obj]⟩

/-! ## Section counter (`pdfconverter.py`, `PageData._section_text` /
`PageData._increment_section`) -/

/-- The 3-level section counter `self.sections = [0, 0, 0]`. -/
structure Sections where
  s0 : Nat
  s1 : Nat
  s2 : Nat
deriving Repr, DecidableEq

/-- Python format `n:02` for a natural number: zero-pad to width 2. -/
def pad02 (n : Nat) : String :=
  if n < 10 then "0" ++ toString n else toString n

/-- `PageData._section_text` (lines 350-358): render the counter, omitting
trailing levels that are still zero. -/
def section_text (s : Sections) : String :=
  if s.s1 = 0 ∧ s.s2 = 0 then pad02 s.s0
  else if s.s2 = 0 then pad02 s.s0 ++ "." ++ pad02 s.s1
  else pad02 s.s0 ++ "." ++ pad02 s.s1 ++ "." ++ pad02 s.s2

/-- `PageData._increment_section` (lines 360-369): bump one level, zeroing the
levels below it (level 0 zeroes levels 1 and 2; level 1 zeroes level 2; any
other argument bumps level 2 alone). -/
def increment_section (s : Sections) (level : Nat) : Sections :=
  if level = 0 then ⟨s.s0 + 1, 0, 0⟩
  else if level = 1 then ⟨s.s0, s.s1 + 1, 0⟩
  else ⟨s.s0, s.s1, s.s2 + 1⟩

/-- The label sequence produced by a sequence of increments, mirroring
`PageData._new_story` (line 371-373), which increments the requested level and
then renders the label for the new Story name. -/
def section_labels (levels : List Nat) : List String :=
  (levels.foldl
    (fun (acc : Sections × List String) level =>
      let s := increment_section acc.1 level
      (s, acc.2 ++ [section_text s]))
    (⟨0, 0, 0⟩, [])).2

/-! ## Input data model (`pdfconverter.py` dataclasses and the extracted
page dictionaries)

The `size` and `flags` values of a span only ever reach the logic through the
interpolated style string (`font size flags color` joined by single spaces)
and through equality of that string, so they are modelled by their printed
forms. -/

/-- `StyleData` — the style signature fields of a span. -/
structure StyleData where
  font : String
  size : String
  flags : String
  color : String
deriving Repr, DecidableEq

/-- `OriginData` — page coordinates of a span (`int(span.origin)`). -/
structure OriginData where
  x : Int
  y : Int
deriving Repr, DecidableEq

/-- `LocationData` — reading-order indices of a span. -/
structure LocationData where
  page : Nat
  block : Nat
  line : Nat
  span : Nat
deriving Repr, DecidableEq

/-- `Data` — one classified span, as built by `PageData.add_parsed_span`.
At runtime the `style` field holds the style-name string (for example
"body_bold"), which is what the conversion handlers compare against. -/
structure Data where
  style : String
  style_data : StyleData
  origin : OriginData
  text : String
  location : LocationData
deriving Repr, DecidableEq

/-- One span of the extracted page dictionary. -/
structure Span where
  font : String
  size : String
  flags : String
  color : String
  text : String
  origin_x : Int
  origin_y : Int
deriving Repr, DecidableEq

/-- One line of the extracted page dictionary. -/
structure Line where
  spans : List Span
deriving Repr, DecidableEq

/-- One block of the extracted page dictionary. -/
structure Block where
  lines : List Line
deriving Repr, DecidableEq

/-- One page of the extracted page dictionary. -/
structure Page where
  blocks : List Block
deriving Repr, DecidableEq

/-- The style string computed for a span: font, size, flags and color joined
by single spaces. -/
def style_string (sp : Span) : String :=
  sp.font ++ " " ++ sp.size ++ " " ++ sp.flags ++ " " ++ sp.color

/-- The `StyleData` record built for a span in `PageData._parse_span`. -/
def style_data_of (sp : Span) : StyleData :=
  ⟨sp.font, sp.size, sp.flags, sp.color⟩

/-- The `OriginData` record built for a span. -/
def origin_of (sp : Span) : OriginData :=
  ⟨sp.origin_x, sp.origin_y⟩

/-- The parts of `config.json` that the classification pass reads. -/
structure Config where
  stop_processing : List String
  never_allow_strings : List String
  char_override : List (String × String)
deriving Repr, DecidableEq

/-! ## Style calibration (`PageData.__init__` /
`PageData.find_style_for_text`) -/

/-- Scan the spans of one line for the first span whose stripped text
contains the anchor; return its style string. -/
def find_in_spans (anchor : String) : List Span → Option String
  | [] => none
  | sp :: rest =>
      if py_in anchor (py_strip sp.text) then some (style_string sp)
      else find_in_spans anchor rest

/-- Scan the lines of one block. -/
def find_in_lines (anchor : String) : List Line → Option String
  | [] => none
  | l :: rest =>
      match find_in_spans anchor l.spans with
      | some s => some s
      | none => find_in_lines anchor rest

/-- Scan the blocks of one page. -/
def find_in_blocks (anchor : String) : List Block → Option String
  | [] => none
  | b :: rest =>
      match find_in_lines anchor b.lines with
      | some s => some s
      | none => find_in_blocks anchor rest

/-- Scan a list of pages. -/
def find_in_pages (anchor : String) : List Page → Option String
  | [] => none
  | p :: rest =>
      match find_in_blocks anchor p.blocks with
      | some s => some s
      | none => find_in_pages anchor rest

/-- `PageData.find_style_for_text` (lines 222-239): scan every span of
`self.pages[1:]` (the title page is skipped) in reading order and return the
style string of the first span whose stripped text contains the anchor;
`none` when no span matches. -/
def find_style_for_text (pages : List Page) (anchor : String) : Option String :=
  find_in_pages anchor (pages.drop 1)

/-- The result of the calibration loop in `PageData.__init__`
(lines 159-171): the per-style resolution results in configuration order,
plus the names of the styles for which the printed warning fired
(`warning: could not find ...`).  The loop has no failure path: an
unresolved style stores `None` in `self.styles`, prints the warning, and the
loop continues. -/
structure StyleInit where
  styles : List (String × Option String)
  warnings : List String
deriving Repr, DecidableEq

/-- The calibration loop of `PageData.__init__`, with `module_config` the
style-name-to-anchor pairs in configuration order. -/
def init_styles (module_config : List (String × String)) (pages : List Page) : StyleInit :=
  { styles := module_config.map (fun p => (p.1, find_style_for_text pages p.2)),
    warnings :=
      (module_config.filter (fun p => (find_style_for_text pages p.2).isNone)).map
        (fun p => p.1) }

/-- Lookup in the reverse dictionary `self.style_names_from_style`
(lines 188-190): the dictionary is populated by iterating `self.styles` in
insertion order, so for a given style string the last style name whose
resolved signature equals it wins; entries whose resolution is `None` are
keyed by `None` and can never match a style string. -/
def style_lookup (styles : List (String × Option String)) (style : String) : Option String :=
  ((styles.filter (fun p => p.2 == some style)).map (fun p => p.1)).getLast?

/-! ## Classification pass (`PageData.parse` / `PageData._parse_span`) -/

/-- The mutable parsing state of `PageData`.  `page_bullshit_start` is set to
`True` in `__init__` and is never assigned anywhere else in this revision of
the file, so it stays `true` for the whole pass. -/
structure ParseState where
  data : List Data
  stop_parsing : Bool
  current_page_span : Nat
  page_bullshit_start : Bool
deriving Repr, DecidableEq

/-- The state `PageData.parse` starts from. -/
def initial_parse_state : ParseState :=
  ⟨[], false, 0, true⟩

/-- The title-page branch of `PageData._parse_span` (lines 317-327): the
style table is not consulted; the style string is lower-cased and the
semantic style is chosen by substring tests on it.  Note the `elif`: when
both "italic" and "bold" occur, the result is "body_italic", and no branch
ever produces "body_bold_italic". -/
def page_zero_style (style : String) : String :=
  let lowered := py_lower style
  if py_in "italic" lowered then "body_italic"
  else if py_in "bold" lowered then "body_bold"
  else "body"

/-- `PageData._parse_span` (lines 276-348), as a pure state transformer.
The steps, in source order:

1. lines 283-286: if the stripped span text equals any configured
   stop-processing string, set `stop_parsing` and return;
2. lines 296-302: while in the leading-noise region of a non-title page,
   mark the span for skipping when it is empty after stripping or its style
   string is not in the reverse style dictionary;
3. lines 305-309: mark the span for skipping (and for really skipping) when
   it contains any configured never-allow string;
4. lines 311-315: skip now when really skipping, or when skipping and not on
   the title page, bumping only the page-span counter;
5. lines 317-337: choose the style name: the title-page rule on page 0, a
   configured single-character override next, "unknown" when the style
   string is not in the reverse dictionary, and otherwise the mapped name;
6. lines 339-348: append the classified span to `self.data`. -/
def parse_span (cfg : Config) (styles : List (String × Option String))
    (st : ParseState) (loc : LocationData) (sp : Span) : ParseState :=
  let style := style_string sp
  let text := sp.text
  if cfg.stop_processing.any (fun stop => py_eq (py_strip text) stop) then
    { st with stop_parsing := true }
  else
    let skip_noise : Bool :=
      if st.page_bullshit_start ∧ loc.page ≠ 0 then
        if (py_strip text).data.length = 0 then true
        else if (style_lookup styles style).isNone then true
        else false
      else false
    let really_skip : Bool := cfg.never_allow_strings.any (fun never => py_in never text)
    let skip_span : Bool := skip_noise || really_skip
    if really_skip ∨ (skip_span ∧ loc.page ≠ 0) then
      { st with current_page_span := st.current_page_span + 1 }
    else
      let style_name :=
        if loc.page = 0 then page_zero_style style
        else if text.data.length = 1 ∧ ((cfg.char_override.lookup text).isSome) then
          (cfg.char_override.lookup text).getD ""
        else if (style_lookup styles style).isNone then "unknown"
        else (style_lookup styles style).getD ""
      { st with
        data := st.data ++ [⟨style_name, style_data_of sp, origin_of sp, text, loc⟩],
        current_page_span := st.current_page_span + 1 }

/-- The innermost loop of `PageData.parse` (lines 271-274): process the spans
of one line in order, carrying the enumeration index.  The source checks
`self.stop_parsing` immediately after each `_parse_span` call and returns
from the whole method; checking the flag immediately before the next call is
observably identical (nothing happens in between), and the loop is never
entered with the flag already set because the enclosing loops run under the
same check. -/
def run_spans (cfg : Config) (styles : List (String × Option String))
    (page_n block_n line_n : Nat) : ParseState → Nat → List Span → ParseState
  | st, _, [] => st
  | st, i, sp :: rest =>
      if st.stop_parsing then st
      else
        run_spans cfg styles page_n block_n line_n
          (parse_span cfg styles st ⟨page_n, block_n, line_n, i⟩ sp) (i + 1) rest

/-- The line loop of `PageData.parse`. -/
def run_lines (cfg : Config) (styles : List (String × Option String))
    (page_n block_n : Nat) : ParseState → Nat → List Line → ParseState
  | st, _, [] => st
  | st, i, l :: rest =>
      if st.stop_parsing then st
      else
        run_lines cfg styles page_n block_n
          (run_spans cfg styles page_n block_n i st 0 l.spans) (i + 1) rest

/-- The block loop of `PageData.parse`. -/
def run_blocks (cfg : Config) (styles : List (String × Option String))
    (page_n : Nat) : ParseState → Nat → List Block → ParseState
  | st, _, [] => st
  | st, i, b :: rest =>
      if st.stop_parsing then st
      else
        run_blocks cfg styles page_n
          (run_lines cfg styles page_n i st 0 b.lines) (i + 1) rest

/-- The page loop of `PageData.parse`. -/
def run_pages (cfg : Config) (styles : List (String × Option String)) :
    ParseState → Nat → List Page → ParseState
  | st, _, [] => st
  | st, i, p :: rest =>
      if st.stop_parsing then st
      else
        run_pages cfg styles (run_blocks cfg styles i st 0 p.blocks) (i + 1) rest

/-- `PageData.parse` preceded by the calibration of `PageData.__init__`:
resolve the configured styles over the corpus (emitting a warning for each
unresolved one) and then run the classification pass.  Neither stage has a
raising path in the source: calibration always completes, and parsing then
always begins. -/
def parse_document (cfg : Config) (module_config : List (String × String))
    (pages : List Page) : StyleInit × ParseState :=
  let si := init_styles module_config pages
  (si, run_pages cfg si.styles initial_parse_state 0 pages)

/-! ## Conversion pass (`PageData.convert` and its handlers)

The handlers below are line-by-line translations of the source.  Where the
source calls into `formattedtext.py` or `encounter.py` with the old calling
convention, the translation returns the exception that the current class
definitions raise; every such branch carries a comment naming the source
line and the mismatch. -/

/-- The Python exceptions that the conversion pass can raise. -/
inductive PyExc where
  | typeError
  | attributeError
  | indexError
  | keyError
deriving Repr, DecidableEq

/-- The `Story` class of `encounter.py`.  Its constructor signature is
`(self, name, *, locked=False)`; its attributes relevant here are the
numeric id and the name.  It has no `text` attribute and no `text`
constructor keyword. -/
structure Story where
  id : Nat
  name : String
deriving Repr, DecidableEq

/-- The conversion state of `PageData` (fields assigned in `__init__` and in
`PageData.convert`, lines 139-153 and 386-393). -/
structure ConvState where
  sections : Sections
  previous_data : Option Data
  current_story : Option Story
  current_heading_3 : Option FormattedHeading
  current_styledtext : Option StyledText
  current_paragraph : Option FormattedParagraph
  current_bullet : Option FormattedList
  current_bullet_x : Option Int
  current_table : Option FormattedTable
  current_table_row : Option FormattedTableRow
  current_table_heading_count : Nat
deriving Repr, DecidableEq

/-- A fresh conversion state: everything unset, counters zero. -/
def conv_state_0 : ConvState :=
  ⟨⟨0, 0, 0⟩, none, none, none, none, none, none, none, none, none, 0⟩

/-- `segment_from_data` (lines 106-114): the bold and italic flags are
substring tests on the style-name string carried by the span. -/
def segment_of_data (d : Data) : StyledTextSegment :=
  { text := d.text, bold := py_in "bold" d.style, italic := py_in "italic" d.style }

/-- The wrap-continuation test shared by the heading handlers (for example
lines 449-453): the previous span exists, has exactly the handler's own
style name, and lies on the same page. -/
def heading_merge_cond (style_name : String) (prev : Option Data) (d : Data) : Bool :=
  match prev with
  | none => false
  | some p => py_eq p.style style_name && decide (d.location.page = p.location.page)

/-- `PageData._convert_heading_1` (lines 448-463).  The wrap branch appends
the span text to the current Story name and clears `current_bullet`.  The
other branch calls `self._new_story(data.text, 0)`, which increments the
section counter and then evaluates
`Story(section label and name, text=FormattedText())` (line 373); the
`Story.__init__` of `encounter.py` accepts no `text` keyword, so the call
raises TypeError (the exception aborts `convert`, so the earlier counter
increment is never observable). -/
def convert_heading_1 (st : ConvState) (d : Data) : Except PyExc ConvState :=
  if heading_merge_cond "heading_1" st.previous_data d then
    match st.current_story with
    | some s =>
        Except.ok { st with
          current_story := some { s with name := s.name ++ d.text },
          current_bullet := none }
    | none => Except.error PyExc.attributeError
  else
    Except.error PyExc.typeError

/-- `PageData._convert_heading_2` (lines 465-477): same shape as
`_convert_heading_1` at section level 1, without the `current_bullet`
clearing; the non-wrap branch raises the same TypeError from line 373. -/
def convert_heading_2 (st : ConvState) (d : Data) : Except PyExc ConvState :=
  if heading_merge_cond "heading_2" st.previous_data d then
    match st.current_story with
    | some s =>
        Except.ok { st with current_story := some { s with name := s.name ++ d.text } }
    | none => Except.error PyExc.attributeError
  else
    Except.error PyExc.typeError

/-- `PageData._convert_heading_3` (lines 479-491).  The wrap branch appends
to the open heading node.  The other branch builds the heading and then
evaluates `self.current_story.text` (line 491); the `Story` class has no
`text` attribute (and `current_story` may equally be `None`), so the access
raises AttributeError. -/
def convert_heading_3 (st : ConvState) (d : Data) : Except PyExc ConvState :=
  if heading_merge_cond "heading_3" st.previous_data d then
    match st.current_heading_3 with
    | some h => Except.ok { st with current_heading_3 := some (h.append d.text) }
    | none => Except.error PyExc.attributeError
  else
    Except.error PyExc.attributeError

/-- The test `self.current_bullet is not None and
self.current_bullet.length() == 0` of lines 540. -/
def bullet_entry_empty (st : ConvState) : Bool :=
  match st.current_bullet with
  | some b => decide (b.length = 0)
  | none => false

/-- The test `self.previous_data is not None and "body" in
self.previous_data.style` of lines 548-549. -/
def prev_is_body (prev : Option Data) : Bool :=
  match prev with
  | some p => py_in "body" p.style
  | none => false

/-- The tail of `PageData._convert_body` from line 540 on, reached when
neither the leading-punctuation branch nor a bullet-exit branch returned.
Lines 540-542 record the bullet left anchor when the current bullet entry is
still empty.  The previous-span-was-body branch (lines 547-566) first
evaluates `self.current_styledtext.last_segment().text()`: `last_segment` is
a property, so the expression reads the property (IndexError on an empty
segment list) and then calls the returned `StyledTextSegment`, raising
TypeError.  The bullet branch (lines 569-571) appends the segment to the
open run — the only body path that completes.  The final fallback
(line 573) evaluates `StyledText([segment])`, whose `__init__` accepts no
positional argument, raising TypeError. -/
def convert_body_tail (st : ConvState) (d : Data) (seg : StyledTextSegment) :
    Except PyExc ConvState :=
  let st :=
    if bullet_entry_empty st then
      { st with current_bullet_x := some d.origin.x }
    else st
  if prev_is_body st.previous_data ∧ st.current_styledtext.isSome then
    match st.current_styledtext with
    | some stx =>
        if stx.segments.isEmpty then Except.error PyExc.indexError
        else Except.error PyExc.typeError
    | none => Except.error PyExc.typeError
  else if st.current_bullet.isSome then
    match st.current_styledtext with
    | some stx => Except.ok { st with current_styledtext := some (stx.append seg) }
    | none => Except.error PyExc.attributeError
  else
    Except.error PyExc.typeError

/-- `PageData._convert_body` (lines 493-578).  The leading-punctuation branch
(lines 496-508) evaluates `self.current_styledtext.last_segment()` and
raises as described on `convert_body_tail`.  The two bullet-exit branches
(lines 517-522 and 528-536) both end in `StyledText([segment])` and raise
TypeError; evaluating the margin comparison of the second branch first looks
up the configured margins, raising KeyError when the key is absent and
AttributeError when the stored origin is `None` (line 529-530). -/
def convert_body (origins : List (String × Option OriginData)) (st : ConvState)
    (d : Data) : Except PyExc ConvState :=
  if d.text.data.length > 1 ∧ (py_starts_with d.text ". " ∨ py_starts_with d.text ", ")
      ∧ st.current_styledtext.isSome then
    match st.current_styledtext with
    | some stx =>
        if stx.segments.isEmpty then Except.error PyExc.indexError
        else Except.error PyExc.typeError
    | none => Except.error PyExc.typeError
  else
    let seg := segment_of_data d
    match st.current_bullet_x with
    | some bx =>
        if bx > d.origin.x then Except.error PyExc.typeError
        else
          match origins.lookup "left_column_margin" with
          | none => Except.error PyExc.keyError
          | some none => Except.error PyExc.attributeError
          | some (some left) =>
              if d.origin.x = left.x then Except.error PyExc.typeError
              else
                match origins.lookup "right_column_margin" with
                | none => Except.error PyExc.keyError
                | some none => Except.error PyExc.attributeError
                | some (some right) =>
                    if d.origin.x = right.x then Except.error PyExc.typeError
                    else convert_body_tail st d seg
    | none => convert_body_tail st d seg

/-- `PageData._convert_bullet` (lines 580-590): both branches evaluate
`StyledText([])`, passing a positional argument to an `__init__` that
accepts none, so the handler always raises TypeError. -/
def convert_bullet (_st : ConvState) (_d : Data) : Except PyExc ConvState :=
  Except.error PyExc.typeError

/-- `PageData._convert_box_heading` (lines 592-602): the body begins with a
bare `return`, so the handler is a no-op and the code after it is dead. -/
def convert_box_heading (st : ConvState) (_d : Data) : Except PyExc ConvState :=
  Except.ok st

/-- `PageData._convert_table_title` (lines 604-615): after resetting the
paragraph state it evaluates `StyledText([segment])` (line 607), raising
TypeError. -/
def convert_table_title (_st : ConvState) (_d : Data) : Except PyExc ConvState :=
  Except.error PyExc.typeError

/-- `PageData._convert_table_heading` (lines 617-629).  When no table is
open, line 620 evaluates `self.current_story.text`, and the `Story` class
has no `text` attribute, so the access raises AttributeError.  Otherwise the
handler survives the row bookkeeping and the count increment (line 626) and
then evaluates `StyledText([StyledTextSegment(data.text, bold=True)])`
(line 627), raising TypeError; the increment is not observable because the
exception aborts `convert`. -/
def convert_table_heading (st : ConvState) (_d : Data) : Except PyExc ConvState :=
  if st.current_table.isNone then Except.error PyExc.attributeError
  else Except.error PyExc.typeError

/-- `PageData._convert_table_text` (lines 631-654).  The guard at
lines 632-634 returns immediately — touching nothing and raising nothing —
when `current_table_heading_count` is zero, that is, when no table-heading
column has been seen for the current table.  Past the guard, a missing table
raises AttributeError at line 638 (`self.current_story.text`), and otherwise
line 653 evaluates `StyledText([segment])`, raising TypeError. -/
def convert_table_text (st : ConvState) (_d : Data) : Except PyExc ConvState :=
  if st.current_table_heading_count = 0 then Except.ok st
  else if st.current_table.isNone then Except.error PyExc.attributeError
  else Except.error PyExc.typeError

/-- The handler dispatch of `PageData.convert` (lines 396-421): when the
style name has a handler, run it and then record the span as
`previous_data`; spans without a handler (for example "unknown") leave the
state untouched. -/
def convert_step (origins : List (String × Option OriginData)) (st : ConvState)
    (d : Data) : Except PyExc ConvState :=
  let run : Option (Except PyExc ConvState) :=
    if py_eq d.style "heading_1" then some (convert_heading_1 st d)
    else if py_eq d.style "heading_2" then some (convert_heading_2 st d)
    else if py_eq d.style "heading_3" then some (convert_heading_3 st d)
    else if py_eq d.style "body" ∨ py_eq d.style "body_bold"
        ∨ py_eq d.style "body_italic" ∨ py_eq d.style "body_bold_italic" then
      some (convert_body origins st d)
    else if py_eq d.style "box_heading" then some (convert_box_heading st d)
    else if py_eq d.style "bullet" then some (convert_bullet st d)
    else if py_eq d.style "table_title" then some (convert_table_title st d)
    else if py_eq d.style "table_heading" then some (convert_table_heading st d)
    else if py_eq d.style "table_text" ∨ py_eq d.style "table_text_italic" then
      some (convert_table_text st d)
    else none
  match run with
  | none => Except.ok st
  | some (Except.ok st2) => Except.ok { st2 with previous_data := some d }
  | some (Except.error e) => Except.error e

/-- `PageData.convert` (lines 381-425).  After constructing the `Encounter`
it evaluates `Story(formatted module name, text=FormattedText())`
(line 393).  `Story.__init__` in `encounter.py` is
`(self, name, *, locked=False)` and accepts no `text` keyword, so every call
to `convert` raises TypeError before the handler loop runs (had it not, the
very next call, `self.encounters.append_story(...)` on line 394, would raise
AttributeError: the `Encounter` class defines `add_story`, not
`append_story`). -/
def convert (_campaign_name : String) (_ds : List Data) : Except PyExc (List Story) :=
  Except.error PyExc.typeError

/-! ## Concrete inputs used by the theorems below -/

/-- A body span classified on page 1. -/
def body_frag : Data :=
  ⟨"body", ⟨"BookInsanity", "9.0", "4", "0"⟩, ⟨56, 100⟩, "Hello world.", ⟨1, 0, 0, 0⟩⟩

/-- A heading-1 span on page 3 whose text is the first half of a wrapped
title. -/
def intro_frag : Data :=
  ⟨"heading_1", ⟨"ModestoExpanded", "25.0", "0", "0"⟩, ⟨56, 60⟩, "Intro", ⟨3, 0, 0, 0⟩⟩

/-- The continuation of the wrapped heading-1 title, same page. -/
def duction_frag : Data :=
  ⟨"heading_1", ⟨"ModestoExpanded", "25.0", "0", "0"⟩, ⟨56, 80⟩, "duction", ⟨3, 0, 1, 0⟩⟩

/-- The conversion state a wrap-continuation of `intro_frag` would run from:
the previous span was `intro_frag` and its Story is current. -/
def merge_state : ConvState :=
  { conv_state_0 with
      previous_data := some intro_frag,
      current_story := some ⟨1, "01 Intro"⟩ }

/-- A table-heading span. -/
def th_frag : Data :=
  ⟨"table_heading", ⟨"BookInsanity-Bold", "9.0", "20", "0"⟩, ⟨56, 200⟩, "Column", ⟨4, 0, 0, 0⟩⟩

/-- A table-text span. -/
def tt_frag : Data :=
  ⟨"table_text", ⟨"BookInsanity", "9.0", "4", "0"⟩, ⟨56, 210⟩, "cell", ⟨4, 0, 1, 0⟩⟩

/-- The table scenario of the specification: three heading columns followed
by nine body cells. -/
def table_scenario : List Data :=
  [th_frag, th_frag, th_frag,
   tt_frag, tt_frag, tt_frag, tt_frag, tt_frag, tt_frag, tt_frag, tt_frag, tt_frag]

/-- A configuration with no stop strings, no never-allow strings and no
character overrides. -/
def empty_cfg : Config :=
  ⟨[], [], []⟩

/-- A configuration whose only stop-processing sentinel is "STOP". -/
def stop_cfg : Config :=
  ⟨["STOP"], [], []⟩

/-- A span whose stripped text equals the configured sentinel. -/
def stop_span : Span :=
  ⟨"BookInsanity", "9.0", "4", "0", " STOP ", 56, 300⟩

/-- An ordinary body span of the corpus used in the calibration and sentinel
examples. -/
def lorem_span : Span :=
  ⟨"BookInsanity", "9.0", "4", "0", "Lorem ipsum dolor", 56, 100⟩

/-- A second ordinary span. -/
def amet_span : Span :=
  ⟨"BookInsanity", "9.0", "4", "0", "sit amet", 56, 120⟩

/-- A module configuration asking for two styles: a heading-1 anchor that
appears nowhere in the corpus below, and a body anchor that does. -/
def c2_module_config : List (String × String) :=
  [("heading_1", "CREDITS"), ("body", "Lorem")]

/-- A two-page corpus: an empty title page, then one page containing a
single body span.  The heading-1 anchor "CREDITS" occurs nowhere. -/
def c2_pages : List Page :=
  [⟨[]⟩, ⟨[⟨[⟨[lorem_span]⟩]⟩]⟩]

/-- The style table resolved from `c2_pages`. -/
def c2_styles : List (String × Option String) :=
  (init_styles c2_module_config c2_pages).styles

/-! ## Helper lemmas -/

/-- The Python accumulator loops are left folds; relate them to `List.sum`
of the mapped lengths. -/
theorem foldl_add_eq_sum {α : Type} (f : α → Nat) :
    ∀ (l : List α) (n : Nat),
      l.foldl (fun total x => total + f x) n = n + (l.map f).sum := by
  intro l
  induction l with
  | nil => intro n; simp
  | cons x xs ih =>
      intro n
      simp only [List.foldl_cons, List.map_cons, List.sum_cons, ih]
      omega

/-- A span whose stripped text equals a configured stop string makes
`_parse_span` set the stop flag and change nothing else (lines 283-286). -/
theorem parse_span_sentinel (cfg : Config) (styles : List (String × Option String))
    (st : ParseState) (loc : LocationData) (sp : Span)
    (h : cfg.stop_processing.any (fun stop => py_eq (py_strip sp.text) stop) = true) :
    parse_span cfg styles st loc sp = { st with stop_parsing := true } := by
  simp [parse_span, h]

/-- Once the stop flag is set, the span loop does nothing. -/
theorem run_spans_stopped (cfg : Config) (styles : List (String × Option String))
    (p b l : Nat) (st : ParseState) (i : Nat) (spans : List Span)
    (h : st.stop_parsing = true) :
    run_spans cfg styles p b l st i spans = st := by
  cases spans with
  | nil => rfl
  | cons sp rest => simp [run_spans, h]

/-- Once the stop flag is set, the line loop does nothing. -/
theorem run_lines_stopped (cfg : Config) (styles : List (String × Option String))
    (p b : Nat) (st : ParseState) (i : Nat) (lines : List Line)
    (h : st.stop_parsing = true) :
    run_lines cfg styles p b st i lines = st := by
  cases lines with
  | nil => rfl
  | cons l rest => simp [run_lines, h]

/-- Once the stop flag is set, the block loop does nothing. -/
theorem run_blocks_stopped (cfg : Config) (styles : List (String × Option String))
    (p : Nat) (st : ParseState) (i : Nat) (blocks : List Block)
    (h : st.stop_parsing = true) :
    run_blocks cfg styles p st i blocks = st := by
  cases blocks with
  | nil => rfl
  | cons b rest => simp [run_blocks, h]

/-- Once the stop flag is set, the page loop does nothing. -/
theorem run_pages_stopped (cfg : Config) (styles : List (String × Option String))
    (st : ParseState) (i : Nat) (pages : List Page)
    (h : st.stop_parsing = true) :
    run_pages cfg styles st i pages = st := by
  cases pages with
  | nil => rfl
  | cons p rest => simp [run_pages, h]

/-- Processing a span list with a sentinel span inserted yields exactly the
classified data of the prefix before the sentinel: the sentinel span itself
appends nothing and everything after it is never processed. -/
theorem run_spans_sentinel_cut (cfg : Config) (styles : List (String × Option String))
    (p b l : Nat) (sp : Span)
    (h : cfg.stop_processing.any (fun stop => py_eq (py_strip sp.text) stop) = true) :
    ∀ (xs : List Span) (st : ParseState) (i : Nat) (ys : List Span),
      (run_spans cfg styles p b l st i (xs ++ sp :: ys)).data
        = (run_spans cfg styles p b l st i xs).data := by
  intro xs
  induction xs with
  | nil =>
      intro st i ys
      simp only [List.nil_append]
      by_cases hstop : st.stop_parsing = true
      · rw [run_spans_stopped cfg styles p b l st i _ hstop]
        rfl
      · have hstop2 : st.stop_parsing = false := by
          cases hv : st.stop_parsing
          · rfl
          · exact absurd hv hstop
        show (run_spans cfg styles p b l st i (sp :: ys)).data = st.data
        rw [show run_spans cfg styles p b l st i (sp :: ys)
              = run_spans cfg styles p b l
                  (parse_span cfg styles st ⟨p, b, l, i⟩ sp) (i + 1) ys by
            simp [run_spans, hstop2]]
        rw [parse_span_sentinel cfg styles st ⟨p, b, l, i⟩ sp h]
        rw [run_spans_stopped cfg styles p b l _ (i + 1) ys rfl]
  | cons x rest ih =>
      intro st i ys
      by_cases hstop : st.stop_parsing = true
      · rw [run_spans_stopped cfg styles p b l st i _ hstop,
            run_spans_stopped cfg styles p b l st i _ hstop]
      · have hstop2 : st.stop_parsing = false := by
          cases hv : st.stop_parsing
          · rfl
          · exact absurd hv hstop
        show (run_spans cfg styles p b l st i (x :: (rest ++ sp :: ys))).data
          = (run_spans cfg styles p b l st i (x :: rest)).data
        rw [show run_spans cfg styles p b l st i (x :: (rest ++ sp :: ys))
              = run_spans cfg styles p b l
                  (parse_span cfg styles st ⟨p, b, l, i⟩ x) (i + 1) (rest ++ sp :: ys) by
            simp [run_spans, hstop2]]
        rw [show run_spans cfg styles p b l st i (x :: rest)
              = run_spans cfg styles p b l
                  (parse_span cfg styles st ⟨p, b, l, i⟩ x) (i + 1) rest by
            simp [run_spans, hstop2]]
        exact ih (parse_span cfg styles st ⟨p, b, l, i⟩ x) (i + 1) ys

/-! ## Claim theorems -/

/-- C10: for every `StyledText`, `length` equals the sum of the segment
lengths, and appending a segment increases `length` by exactly that
segment's length; the same sum-of-children equation holds for
`FormattedText`, `FormattedList`, `FormattedTableRow` and `FormattedTable`
over their respective children. -/
theorem length_sum_of_children :
    (∀ st : StyledText, st.length = (st.segments.map StyledTextSegment.length).sum)
    ∧ (∀ (st : StyledText) (s : StyledTextSegment),
        (st.append s).length = st.length + s.length)
    ∧ (∀ ft : FormattedText, ft.length = (ft.document.map FTObject.length).sum)
    ∧ (∀ l : FormattedList, l.length = (l.items.map StyledText.length).sum)
    ∧ (∀ r : FormattedTableRow, r.length = (r.columns.map StyledText.length).sum)
    ∧ (∀ t : FormattedTable, t.length = (t.rows.map FormattedTableRow.length).sum) := by
  refine ⟨?_, ?_, ?_, ?_, ?_, ?_⟩
  · intro st
    simpa using foldl_add_eq_sum StyledTextSegment.length st.segments 0
  · intro st s
    show (⟨st.segments ++ [s]⟩ : StyledText).length = st.length + s.length
    simp [StyledText.length, foldl_add_eq_sum]
  · intro ft
    simpa using foldl_add_eq_sum FTObject.length ft.document 0
  · intro l
    simpa using foldl_add_eq_sum StyledText.length l.items 0
  · intro r
    simpa using foldl_add_eq_sum StyledText.length r.columns 0
  · intro t
    simpa using foldl_add_eq_sum FormattedTableRow.length t.rows 0

/-- C4 counterexample: appending two texts that share identical
(bold, italic) flags to a run leaves them as two separate segments; they are
not merged into the single segment "Hello world.". -/
theorem append_does_not_merge_cex :
    (StyledText.append (StyledText.append StyledText.init ⟨"Hello ", false, false⟩)
        ⟨"world.", false, false⟩).segments =
      [⟨"Hello ", false, false⟩, ⟨"world.", false, false⟩]
    ∧ (StyledText.append (StyledText.append StyledText.init ⟨"Hello ", false, false⟩)
        ⟨"world.", false, false⟩).segments ≠ [⟨"Hello world.", false, false⟩] := by
  exact ⟨rfl, by decide⟩

/-- C4 (amended): within a run, every appended text is retained as its own
segment — `StyledText.append` never merges, even when consecutive appended
texts share identical (bold, italic) flags; the segment list grows by
exactly one element per append. -/
theorem append_keeps_segments_separate :
    ∀ (st : StyledText) (s : StyledTextSegment),
      (st.append s).segments = st.segments ++ [s]
      ∧ (st.append s).segments.length = st.segments.length + 1 := by
  intro st s
  exact ⟨rfl, by simp [StyledText.append]⟩

/-- C5 counterexample: the increment-level sequence [0, 0, 1, 0] does not
produce the labels "01", "01.01", "01.01.01", "02" claimed for it — it
produces "01", "02", "02.01", "03" (the claimed labels arise from the
sequence [0, 1, 2, 0]). -/
theorem section_label_sequence_cex :
    section_labels [0, 0, 1, 0] = ["01", "02", "02.01", "03"]
    ∧ section_labels [0, 0, 1, 0] ≠ ["01", "01.01", "01.01.01", "02"] := by
  exact ⟨rfl, by decide⟩

/-- C5 (amended): incrementing level 0 resets the two lower levels,
incrementing level 1 resets the lowest level, incrementing level 2 changes
only itself; the rendered label zero-pads each part to 2 digits, joins the
parts with ".", and omits trailing all-zero levels; and the increment-level
sequence [0, 1, 2, 0] produces the labels "01", "01.01", "01.01.01", "02"
in order. -/
theorem section_counter_spec :
    (∀ s : Sections, increment_section s 0 = ⟨s.s0 + 1, 0, 0⟩)
    ∧ (∀ s : Sections, increment_section s 1 = ⟨s.s0, s.s1 + 1, 0⟩)
    ∧ (∀ s : Sections, increment_section s 2 = ⟨s.s0, s.s1, s.s2 + 1⟩)
    ∧ (∀ s : Sections, s.s1 = 0 → s.s2 = 0 → section_text s = pad02 s.s0)
    ∧ (∀ s : Sections, s.s1 ≠ 0 → s.s2 = 0 →
        section_text s = pad02 s.s0 ++ "." ++ pad02 s.s1)
    ∧ (∀ s : Sections, s.s2 ≠ 0 →
        section_text s = pad02 s.s0 ++ "." ++ pad02 s.s1 ++ "." ++ pad02 s.s2)
    ∧ section_labels [0, 1, 2, 0] = ["01", "01.01", "01.01.01", "02"] := by
  refine ⟨?_, ?_, ?_, ?_, ?_, ?_, rfl⟩
  · intro s; simp [increment_section]
  · intro s; simp [increment_section]
  · intro s; simp [increment_section]
  · intro s h1 h2; simp [section_text, h1, h2]
  · intro s h1 h2; simp [section_text, h1, h2]
  · intro s h2; simp [section_text, h2]

/-- C5 witness: the three rendering shapes of `section_counter_spec`
evaluated at concrete counters. -/
theorem section_counter_spec_witness :
    section_text ⟨1, 0, 0⟩ = "01" ∧ section_text ⟨1, 2, 0⟩ = "01.02"
    ∧ section_text ⟨1, 2, 3⟩ = "01.02.03" := by
  refine ⟨?_, ?_, ?_⟩
  · exact (section_counter_spec.2.2.2.1 ⟨1, 0, 0⟩ rfl rfl).trans rfl
  · exact (section_counter_spec.2.2.2.2.1 ⟨1, 2, 0⟩ (by decide) rfl).trans rfl
  · exact (section_counter_spec.2.2.2.2.2.1 ⟨1, 2, 3⟩ (by decide)).trans rfl

/-- C3 counterexample: a page-zero style string containing both "bold" and
"italic" is classified as "body_italic", not as the claimed
"body_bold_italic" (the title-page branch tests "italic" first and its
"bold" test is an elif). -/
theorem page_zero_bold_italic_cex :
    py_in "bold" (py_lower "Helvetica-BoldItalic 12.0 3 0") = true
    ∧ py_in "italic" (py_lower "Helvetica-BoldItalic 12.0 3 0") = true
    ∧ page_zero_style "Helvetica-BoldItalic 12.0 3 0" = "body_italic"
    ∧ ("body_italic" : String) ≠ "body_bold_italic" := by
  exact ⟨rfl, rfl, rfl, by decide⟩

/-- C3 (amended): on page zero, classification ignores the style table and
derives the style purely from the lower-cased style string: "body_italic"
when it contains "italic" (regardless of "bold"), "body_bold" when it
contains "bold" and not "italic", "body" when it contains neither; the label
"body_bold_italic" is never produced on page zero. -/
theorem page_zero_style_classification :
    (∀ style : String, py_in "italic" (py_lower style) = true →
        page_zero_style style = "body_italic")
    ∧ (∀ style : String, py_in "italic" (py_lower style) = false →
        py_in "bold" (py_lower style) = true → page_zero_style style = "body_bold")
    ∧ (∀ style : String, py_in "italic" (py_lower style) = false →
        py_in "bold" (py_lower style) = false → page_zero_style style = "body")
    ∧ (∀ style : String, page_zero_style style ≠ "body_bold_italic")
    ∧ (∀ (cfg : Config) (styles1 styles2 : List (String × Option String))
        (st : ParseState) (loc : LocationData) (sp : Span), loc.page = 0 →
          parse_span cfg styles1 st loc sp = parse_span cfg styles2 st loc sp) := by
  refine ⟨?_, ?_, ?_, ?_, ?_⟩
  · intro style h; simp [page_zero_style, h]
  · intro style h1 h2; simp [page_zero_style, h1, h2]
  · intro style h1 h2; simp [page_zero_style, h1, h2]
  · intro style
    unfold page_zero_style
    dsimp only
    split
    · decide
    · split
      · decide
      · decide
  · intro cfg styles1 styles2 st loc sp h
    simp [parse_span, h]

/-- C3 witness: `page_zero_style_classification` evaluated on an italic
font, a bold font, a plain font, and on one page-zero span under two
different style tables. -/
theorem page_zero_style_classification_witness :
    page_zero_style "Dax-Italic 10.0 2 0" = "body_italic"
    ∧ page_zero_style "Dax-Bold 10.0 2 0" = "body_bold"
    ∧ page_zero_style "Dax 10.0 0 0" = "body"
    ∧ parse_span empty_cfg [] initial_parse_state ⟨0, 0, 0, 0⟩ lorem_span
        = parse_span empty_cfg c2_styles initial_parse_state ⟨0, 0, 0, 0⟩ lorem_span := by
  refine ⟨?_, ?_, ?_, ?_⟩
  · exact page_zero_style_classification.1 "Dax-Italic 10.0 2 0" rfl
  · exact page_zero_style_classification.2.1 "Dax-Bold 10.0 2 0" rfl rfl
  · exact page_zero_style_classification.2.2.1 "Dax 10.0 0 0" rfl rfl
  · exact page_zero_style_classification.2.2.2.2 empty_cfg [] c2_styles
      initial_parse_state ⟨0, 0, 0, 0⟩ lorem_span rfl

/-- C2 counterexample: on the concrete corpus `c2_pages`, whose required
heading-1 anchor matches nowhere, initialization completes normally — the
style is left unresolved with a warning — and the classification pass still
runs and classifies a fragment.  Nothing stops the pipeline before
classification. -/
theorem unresolved_heading1_only_warns_cex :
    (init_styles c2_module_config c2_pages).styles =
      [("heading_1", none), ("body", some "BookInsanity 9.0 4 0")]
    ∧ (init_styles c2_module_config c2_pages).warnings = ["heading_1"]
    ∧ (parse_document empty_cfg c2_module_config c2_pages).2.data.map Data.style
        = ["body"] := by
  exact ⟨rfl, rfl, rfl⟩

/-- C2 (amended): a configured style whose anchor matches nowhere — the
required heading-1 included — only yields a calibration warning and an
unresolved entry in the style table; initialization completes and the
classification pass still runs (on the concrete corpus with an unmatched
heading-1 anchor it classifies one fragment). -/
theorem unresolved_style_warns_and_continues :
    (∀ (module_config : List (String × String)) (pages : List Page)
        (nm anchor : String), (nm, anchor) ∈ module_config →
        find_style_for_text pages anchor = none →
          nm ∈ (init_styles module_config pages).warnings
          ∧ (nm, (none : Option String)) ∈ (init_styles module_config pages).styles)
    ∧ (parse_document empty_cfg c2_module_config c2_pages).2.data.length = 1 := by
  constructor
  · intro mc pages nm anchor hmem hnone
    constructor
    · refine List.mem_map.mpr ⟨(nm, anchor), ?_, rfl⟩
      refine List.mem_filter.mpr ⟨hmem, ?_⟩
      simp [hnone]
    · refine List.mem_map.mpr ⟨(nm, anchor), hmem, ?_⟩
      simp [hnone]
  · rfl

/-- C2 witness: `unresolved_style_warns_and_continues` applied to the
concrete corpus whose heading-1 anchor "CREDITS" matches nowhere. -/
theorem unresolved_style_warns_witness :
    "heading_1" ∈ (init_styles c2_module_config c2_pages).warnings
    ∧ ("heading_1", (none : Option String)) ∈ (init_styles c2_module_config c2_pages).styles :=
  unresolved_style_warns_and_continues.1 c2_module_config c2_pages "heading_1" "CREDITS"
    (by decide) rfl

/-- C8: a table-text (or table-text-italic) fragment arriving when no
table-heading column has been counted for the current table is dropped by
the guard of `_convert_table_text`: the handler returns the state unchanged
— no row is created, no column is appended — and raises nothing. -/
theorem table_text_guard_drops :
    ∀ (st : ConvState) (d : Data), st.current_table_heading_count = 0 →
      convert_table_text st d = Except.ok st := by
  intro st d h
  simp [convert_table_text, h]

/-- C8 witness: the guard evaluated on a fresh conversion state and a
concrete table-text fragment. -/
theorem table_text_guard_drops_witness :
    convert_table_text conv_state_0 tt_frag = Except.ok conv_state_0 :=
  table_text_guard_drops conv_state_0 tt_frag rfl

/-- C9: a fragment whose stripped text equals a configured stop-processing
string sets the stop flag without touching the parsed data; once the flag is
set, the page loop — and with it all remaining processing — does nothing;
and inserting such a sentinel span anywhere in a span sequence leaves the
parsed data exactly equal to the data of the prefix before the sentinel.
The halt is a normal return, not an error: the pass is total. -/
theorem stop_sentinel_halts :
    (∀ (cfg : Config) (styles : List (String × Option String)) (st : ParseState)
        (loc : LocationData) (sp : Span),
        cfg.stop_processing.any (fun stop => py_eq (py_strip sp.text) stop) = true →
          parse_span cfg styles st loc sp = { st with stop_parsing := true })
    ∧ (∀ (cfg : Config) (styles : List (String × Option String)) (st : ParseState)
        (i : Nat) (pages : List Page), st.stop_parsing = true →
          run_pages cfg styles st i pages = st)
    ∧ (∀ (cfg : Config) (styles : List (String × Option String)) (p b l : Nat)
        (sp : Span),
        cfg.stop_processing.any (fun stop => py_eq (py_strip sp.text) stop) = true →
        ∀ (xs : List Span) (st : ParseState) (i : Nat) (ys : List Span),
          (run_spans cfg styles p b l st i (xs ++ sp :: ys)).data
            = (run_spans cfg styles p b l st i xs).data) := by
  refine ⟨parse_span_sentinel, ?_, run_spans_sentinel_cut⟩
  intro cfg styles st i pages h
  exact run_pages_stopped cfg styles st i pages h

/-- C9 witness: `stop_sentinel_halts` applied to the concrete sentinel
configuration, a concrete sentinel span, a concrete stopped state, and a
concrete span sequence with the sentinel inserted between two ordinary
spans. -/
theorem stop_sentinel_halts_witness :
    parse_span stop_cfg [] initial_parse_state ⟨1, 0, 0, 0⟩ stop_span
        = { initial_parse_state with stop_parsing := true }
    ∧ run_pages stop_cfg [] { initial_parse_state with stop_parsing := true } 0 c2_pages
        = { initial_parse_state with stop_parsing := true }
    ∧ (run_spans stop_cfg [] 1 0 0 initial_parse_state 0
          ([lorem_span] ++ stop_span :: [amet_span])).data
        = (run_spans stop_cfg [] 1 0 0 initial_parse_state 0 [lorem_span]).data := by
  refine ⟨?_, ?_, ?_⟩
  · exact stop_sentinel_halts.1 stop_cfg [] initial_parse_state ⟨1, 0, 0, 0⟩ stop_span
      (by decide)
  · exact stop_sentinel_halts.2.1 stop_cfg [] _ 0 c2_pages rfl
  · exact stop_sentinel_halts.2.2 stop_cfg [] 1 0 0 stop_span (by decide)
      [lorem_span] initial_parse_state 0 [amet_span]

/-- C1: the document-building pass is not exception-free.  Every call to
`PageData.convert` raises TypeError at the initial
`Story(..., text=FormattedText())` construction, and the body handler —
invoked on a fresh state with an ordinary body fragment — also raises
TypeError at `StyledText([segment])`: the revision of `formattedtext.py` and
`encounter.py` in the repository no longer offers the calling conventions
`pdfconverter.py` uses. -/
theorem convert_always_raises :
    (∀ (nm : String) (ds : List Data), convert nm ds = Except.error PyExc.typeError)
    ∧ convert_step [] conv_state_0 body_frag = Except.error PyExc.typeError := by
  exact ⟨fun nm ds => rfl, rfl⟩

/-- C6: the wrap-continuation condition of `_convert_heading_1` is as
claimed (identical style and identical page), but the new-Story branch
raises TypeError at `Story(..., text=FormattedText())`, so the claimed
example cannot produce a Story named "01 Introduction": the first heading-1
fragment already raises; the merge branch would produce that name only from
a state the program cannot reach. -/
theorem heading1_new_story_raises :
    convert_heading_1 conv_state_0 intro_frag = Except.error PyExc.typeError
    ∧ convert_heading_1 merge_state duction_frag =
        Except.ok { merge_state with
          current_story := some ⟨1, "01 Introduction"⟩, current_bullet := none }
    ∧ convert "Module" [intro_frag, duction_frag] = Except.error PyExc.typeError := by
  exact ⟨rfl, rfl, rfl⟩

/-- C7: the claimed table scenario cannot run: a table-heading fragment on a
fresh state raises AttributeError at `self.current_story.text` (the Story
class has no such attribute), with an open table it raises TypeError at
`StyledText([...])`, and `convert` on the scenario of three headings and
nine cells raises TypeError before any handler runs.  No table with a fixed
expected column count is ever built. -/
theorem table_heading_raises :
    convert_table_heading conv_state_0 th_frag = Except.error PyExc.attributeError
    ∧ convert_table_heading { conv_state_0 with current_table := some FormattedTable.init }
        th_frag = Except.error PyExc.typeError
    ∧ convert "Module" table_scenario = Except.error PyExc.typeError := by
  exact ⟨rfl, rfl, rfl⟩
